import Mathlib

/-!
Shallow embedding of the dynamic-komi controller `src/uct/dynkomi.c` of the
pachi Go engine, together with proofs of the specified properties.

Modelling conventions:
* C `float` arithmetic is modelled by exact rational arithmetic (`ℚ`);
  all the properties proved here concern the algebraic / ordering structure
  of the algorithms, not floating-point rounding.
* C `int` fields are modelled by `Int`.
* Functions that mutate the controller state (`struct dynkomi_adaptive`
  together with the `score` / `value` statistics of `struct uct_dynkomi`)
  are modelled by explicit state passing: they return the result value
  paired with the updated state.
* External collaborators that are out of scope (the board structure and its
  queries) are modelled as abstract data: `Board.effective_handicap` stands
  for the external `board_effective_handicap` query.
-/

namespace Pachi

/-- Stone colors, from `enum stone` (board.h, external interface): only the
two player colors matter to the dynkomi controller. -/
inductive Stone where
  | black : Stone
  | white : Stone
deriving DecidableEq, Repr

/-- Modelled from the spec: `stone_other` (board.h, not under src/) swaps the
two player colors; used by `adaptive_permove` to obtain the color opposite
the search root's color. -/
def stone_other : Stone → Stone
  | Stone.black => Stone.white
  | Stone.white => Stone.black

/-- Modelled from the spec: the Color-Frame Normalizer `komi_by_color`
(uct/dynkomi.h, not under src/) converts a compensation value between the
canonical frame and the given side's frame; it is the identity for the first
player (Black) and negation for White, and is its own inverse ("we use
komi_by_color() first to normalize komi additions/subtractions, then apply
it again on return value to restore original komi parity"). -/
def komi_by_color (komi : ℚ) (color : Stone) : ℚ :=
  match color with
  | Stone.black => komi
  | Stone.white => -komi

/-- Board state, external collaborator (board.h): only the fields the
controller reads are modelled.  `moves` is `b->moves`; `effective_handicap`
is the external `board_effective_handicap(b, value)` query, an abstract
function of the per-stone value. -/
structure Board where
  moves : Int
  effective_handicap : Int → ℚ

/-- A win/score statistic, `struct move_stats` (external interface): a
sample count (`playouts`) and a running mean (`value`). -/
structure MoveStats where
  playouts : Int
  value : ℚ
deriving DecidableEq, Repr

/-- Search-tree snapshot, external collaborator (uct/tree.h): the cached
compensation `tree->extra_komi` and the root color. -/
structure Tree where
  extra_komi : ℚ
  root_color : Stone

/-! ## LINEAR dynkomi strategy — linearly decreasing handicap compensation -/

/-- Configuration of the linear strategy, `struct dynkomi_linear`. -/
structure DynkomiLinear where
  handicap_value : Int
  moves : Int
  rootbased : Bool

/-- Default move budget set by `uct_dynkomi_init_linear`: 200 on boards of
side length at least 19, otherwise the zero-initialized default is left in
place. -/
def linear_default_moves (board_size : Int) : Int :=
  if board_size - 2 ≥ 19 then 200 else 0

/-- The per-move operation `linear_permove`: zero once `b->moves` reaches the move budget,
otherwise the handicap-derived base komi scaled down linearly. -/
def linear_permove (l : DynkomiLinear) (b : Board) : ℚ :=
  if b.moves ≥ l.moves then 0
  else
    let base_komi := b.effective_handicap l.handicap_value
    let extra_komi := base_komi * ((l.moves : ℚ) - (b.moves : ℚ)) / (l.moves : ℚ)
    extra_komi

/-! ## ADAPTIVE dynkomi strategy — adaptive situational compensation -/

/-- Which indicator function is installed in the `indicator` function
pointer of `struct dynkomi_adaptive`: `komi_by_score` or `komi_by_value`. -/
inductive Indicator where
  | score : Indicator
  | value : Indicator
deriving DecidableEq, Repr

/-- State of an Adaptive instance: the configuration and runtime fields of
`struct dynkomi_adaptive`, together with the two outcome statistics
`d->score` and `d->value` that live in the enclosing `struct uct_dynkomi`
(uct/dynkomi.h, not under src/) and are read and soft-reset by the
indicator functions.  The pluggable adaptation-rate function pointer
`adapter` is modelled as an abstract function field (the concrete sigmoid
adapter uses `exp` over the out-of-scope board queries). -/
structure DynkomiAdaptive where
  lead_moves : Int
  max_losing_komi : ℚ
  indicator : Indicator
  zone_red : ℚ
  zone_green : ℚ
  score_step : Int
  score_step_byavg : ℚ
  use_komi_ratchet : Bool
  komi_ratchet_maxage : Int
  komi_ratchet_age : Int
  komi_ratchet : ℚ
  adapter : Board → ℚ
  adapt_base : ℚ
  score : MoveStats
  value : MoveStats

/-- The trust threshold `TRUSTWORTHY_KOMI_PLAYOUTS`. -/
def TRUSTWORTHY_KOMI_PLAYOUTS : Int := 200

/-- C `round` (half away from zero), as applied to `score.value *
a->score_step_byavg` in `komi_by_value`. -/
def c_round (x : ℚ) : Int :=
  if x < 0 then -((1/2 - x).floor) else (x + 1/2).floor

/-- The "almost-reset" of the score statistic: `d->score.playouts = 1`,
the mean is left in place. -/
def score_soft_reset (a : DynkomiAdaptive) : DynkomiAdaptive :=
  { a with score := { a.score with playouts := 1 } }

/-- The "almost-reset" of the value statistic: `d->value.playouts = 1`,
the mean is left in place. -/
def value_soft_reset (a : DynkomiAdaptive) : DynkomiAdaptive :=
  { a with value := { a.value with playouts := 1 } }

/-- Score indicator `komi_by_score`: while the score statistic has fewer than 200 samples,
return `tree->extra_komi` unchanged; otherwise snapshot and soft-reset the
score statistic and push `extra_komi` towards the average score by the
adaptation rate `p = adapt_base + adapter(b) * (1 - adapt_base)`, capped at
0.9. -/
def komi_by_score (a : DynkomiAdaptive) (b : Board) (tree : Tree) (color : Stone) :
    ℚ × DynkomiAdaptive :=
  if a.score.playouts < TRUSTWORTHY_KOMI_PLAYOUTS then (tree.extra_komi, a)
  else
    let score := a.score
    let a1 := score_soft_reset a
    let p := a1.adapter b
    let p1 := a1.adapt_base + p * (1 - a1.adapt_base)
    let p2 := if p1 > 9/10 then (9/10 : ℚ) else p1
    let extra_komi := tree.extra_komi + p2 * score.value
    (extra_komi, a1)

/-- The step determination inside `komi_by_value`: `score_step = a->score_step`,
except that with `score_step_byavg` enabled the score statistic is
snapshotted and soft-reset, flipped into `side`'s frame for White, and when
its mean is non-negative the step becomes `round(mean * score_step_byavg)`. -/
def value_score_step (a : DynkomiAdaptive) (color : Stone) : Int × DynkomiAdaptive :=
  if a.score_step_byavg ≠ 0 then
    let score := a.score
    let a1 := score_soft_reset a
    let sv := if color = Stone.white then -score.value else score.value
    ((if sv ≥ 0 then c_round (sv * a.score_step_byavg) else a.score_step), a1)
  else (a.score_step, a)

/-- Value indicator `komi_by_value`: while the value statistic has fewer than 200 samples,
return `tree->extra_komi` unchanged; otherwise snapshot and soft-reset the
value statistic, flip its mean into `side`'s frame, and adjust the
side-relative compensation according to the red / yellow / green zone the
mean falls in, consulting and updating the komi ratchet in the green
zone. -/
def komi_by_value (a : DynkomiAdaptive) (b : Board) (tree : Tree) (color : Stone) :
    ℚ × DynkomiAdaptive :=
  if a.value.playouts < TRUSTWORTHY_KOMI_PLAYOUTS then (tree.extra_komi, a)
  else
    let vv := if color = Stone.white then 1 - a.value.value else a.value.value
    let a1 := value_soft_reset a
    let extra_komi := komi_by_color tree.extra_komi color
    let sp := value_score_step a1 color
    let score_step : Int := sp.1
    let a2 := sp.2
    if vv < a2.zone_red then
      let a3 := if extra_komi > 0 then { a2 with komi_ratchet := extra_komi } else a2
      (komi_by_color (extra_komi - score_step) color, a3)
    else if vv < a2.zone_green then
      (komi_by_color extra_komi color, a2)
    else
      let ek := extra_komi + score_step
      let a3 :=
        if a2.komi_ratchet_maxage > 0 ∧ a2.komi_ratchet_age > a2.komi_ratchet_maxage
        then { a2 with komi_ratchet := 1000, komi_ratchet_age := 0 }
        else a2
      if a3.use_komi_ratchet ∧ ek ≥ a3.komi_ratchet then
        (komi_by_color (a3.komi_ratchet - 1) color,
         { a3 with komi_ratchet_age := a3.komi_ratchet_age + 1 })
      else
        (komi_by_color ek color, a3)

/-- The indirect call `a->indicator(d, b, tree, color)`. -/
def run_indicator (a : DynkomiAdaptive) (b : Board) (tree : Tree) (color : Stone) :
    ℚ × DynkomiAdaptive :=
  match a.indicator with
  | Indicator.score => komi_by_score a b tree color
  | Indicator.value => komi_by_value a b tree color

/-- The per-move operation `adaptive_permove`: for the first `lead_moves` moves return the
handicap-derived compensation with a fixed per-stone value of 7; afterwards
run the indicator and bound the result from below (in the frame of the
color opposite the root color) by `-max_losing_komi`. -/
def adaptive_permove (a : DynkomiAdaptive) (b : Board) (tree : Tree) :
    ℚ × DynkomiAdaptive :=
  if b.moves ≤ a.lead_moves then (b.effective_handicap 7, a)
  else
    let color := stone_other tree.root_color
    let min_komi := komi_by_color (-a.max_losing_komi) color
    let kr := run_indicator a b tree color
    let komi := kr.1
    let a1 := kr.2
    if komi_by_color (komi - min_komi) color > 0 then (komi, a1) else (min_komi, a1)

/-! ## NONE dynkomi strategy -/

/-- Search-tree node, external collaborator (uct/tree.h): the controller
never inspects it, so it is abstract. -/
structure TreeNode where
  depth : Int

/-- Modelled from the spec: `uct_dynkomi_init_none` installs null `permove`
and `persim` handlers; the engine (outside src/) treats the missing
handlers as zero compensation — "Always returns 0 from both operations." -/
def none_permove (b : Board) (tree : Tree) : ℚ := 0

/-- Modelled from the spec: the per-simulation operation of the none
strategy, likewise zero for every node. -/
def none_persim (b : Board) (tree : Tree) (node : TreeNode) : ℚ := 0

/-! ## Configuration parsing

The option strings are colon-separated lists of `name` or `name=value`
tokens, split destructively by the init functions.  Only the validation
outcome is modelled here — which tokens are accepted, which hit the
"Invalid dynkomi argument %s or missing value" fatal error, and which reach
undefined behaviour — since the numeric conversions (`atoi` / `atof`) are
libc externals and the resulting field values are covered by the
behavioural definitions above. -/

/-- Outcome of processing an option string at construction time. -/
inductive InitResult where
  | ok : InitResult
  | configError : InitResult
  | undefinedBehavior : InitResult
deriving DecidableEq, Repr

/-- ASCII lower-casing, as performed characterwise by `strcasecmp`. -/
def ascii_lower (c : Char) : Char :=
  if 'A' ≤ c ∧ c ≤ 'Z' then Char.ofNat (c.toNat + 32) else c

/-- Case-insensitive string equality, modelling `!strcasecmp(a, b)`. -/
def ci_eq (a b : List Char) : Bool :=
  a.map ascii_lower = b.map ascii_lower

/-- Tokenization loop shared by the init functions: `strcspn(next, ":")`
splits off the next token, the colon is consumed, and the loop continues
while characters remain. -/
def split_tokens_go : List Char → List Char → List (List Char)
  | [], acc => [acc.reverse]
  | c :: rest, acc =>
      if c = ':' then
        if rest.isEmpty then [acc.reverse]
        else acc.reverse :: split_tokens_go rest []
      else split_tokens_go rest (c :: acc)

/-- The option string split into tokens; an empty argument yields no
tokens (the `while (*next)` loop never runs). -/
def split_tokens (s : List Char) : List (List Char) :=
  if s.isEmpty then [] else split_tokens_go s []

/-- Splitting one token at its first `=` (`strchr(optspec, '=')`): the name
and, when an `=` is present, the value after it. -/
def split_opt (t : List Char) : List Char × Option (List Char) :=
  let name := t.takeWhile (fun c => c ≠ '=')
  let rest := t.dropWhile (fun c => c ≠ '=')
  match rest with
  | [] => (name, none)
  | _ :: v => (name, some v)

/-- Validation of a single option of `uct_dynkomi_init_adaptive`, following
the if/else chain of the source.  Note that the `indicator` branch, unlike
every other value-requiring branch, does not test `optval` before passing
it to `strcasecmp`; an `indicator` token without `=value` therefore reaches
`strcasecmp(NULL, "value")` — undefined behaviour, not the fatal
invalid-argument report. -/
def adaptive_option (optname : List Char) (optval : Option (List Char)) : InitResult :=
  if ci_eq optname ("lead_moves".data) ∧ optval.isSome then InitResult.ok
  else if ci_eq optname ("max_losing_komi".data) ∧ optval.isSome then InitResult.ok
  else if ci_eq optname ("indicator".data) then
    match optval with
    | none => InitResult.undefinedBehavior
    | some v =>
        if ci_eq v ("value".data) then InitResult.ok
        else if ci_eq v ("score".data) then InitResult.ok
        else InitResult.configError
  else if ci_eq optname ("zone_red".data) ∧ optval.isSome then InitResult.ok
  else if ci_eq optname ("zone_green".data) ∧ optval.isSome then InitResult.ok
  else if ci_eq optname ("score_step".data) ∧ optval.isSome then InitResult.ok
  else if ci_eq optname ("score_step_byavg".data) ∧ optval.isSome then InitResult.ok
  else if ci_eq optname ("use_komi_ratchet".data) then InitResult.ok
  else if ci_eq optname ("komi_ratchet_age".data) ∧ optval.isSome then InitResult.ok
  else if ci_eq optname ("adapter".data) ∧ optval.isSome then
    (match optval with
     | none => InitResult.configError
     | some v =>
         if ci_eq v ("sigmoid".data) then InitResult.ok
         else if ci_eq v ("linear".data) then InitResult.ok
         else InitResult.configError)
  else if ci_eq optname ("adapt_base".data) ∧ optval.isSome then InitResult.ok
  else if ci_eq optname ("adapt_rate".data) ∧ optval.isSome then InitResult.ok
  else if ci_eq optname ("adapt_phase".data) ∧ optval.isSome then InitResult.ok
  else if ci_eq optname ("adapt_moves".data) ∧ optval.isSome then InitResult.ok
  else if ci_eq optname ("adapt_aport".data) then InitResult.ok
  else if ci_eq optname ("adapt_dir".data) ∧ optval.isSome then InitResult.ok
  else InitResult.configError

/-- The option loop of `uct_dynkomi_init_adaptive`: tokens are processed in
order and the first fatal outcome aborts (the source calls `exit(1)`). -/
def adaptive_args_go : List (List Char) → InitResult
  | [] => InitResult.ok
  | t :: rest =>
      match adaptive_option (split_opt t).1 (split_opt t).2 with
      | InitResult.ok => adaptive_args_go rest
      | r => r

/-- Validation outcome of `uct_dynkomi_init_adaptive` on an option string. -/
def adaptive_args (arg : List Char) : InitResult :=
  adaptive_args_go (split_tokens arg)

/-- Validation of a single option of `uct_dynkomi_init_linear`:
`moves` and `handicap_value` require values, `rootbased` does not; anything
else is the fatal invalid-argument error. -/
def linear_option (optname : List Char) (optval : Option (List Char)) : InitResult :=
  if ci_eq optname ("moves".data) ∧ optval.isSome then InitResult.ok
  else if ci_eq optname ("handicap_value".data) ∧ optval.isSome then InitResult.ok
  else if ci_eq optname ("rootbased".data) then InitResult.ok
  else InitResult.configError

/-- The option loop of `uct_dynkomi_init_linear`. -/
def linear_args_go : List (List Char) → InitResult
  | [] => InitResult.ok
  | t :: rest =>
      match linear_option (split_opt t).1 (split_opt t).2 with
      | InitResult.ok => linear_args_go rest
      | r => r

/-- Validation outcome of `uct_dynkomi_init_linear` on an option string. -/
def linear_args (arg : List Char) : InitResult :=
  linear_args_go (split_tokens arg)

/-- Validation outcome of `uct_dynkomi_init_none`: any argument at all is
the fatal "accepts no arguments" error. -/
def none_args (arg : Option (List Char)) : InitResult :=
  match arg with
  | none => InitResult.ok
  | some _ => InitResult.configError

/-! ## Concrete states used to instantiate the theorems -/

/-- A concrete Adaptive state with untrustworthy statistics (5 samples). -/
def ex_adaptive : DynkomiAdaptive :=
  { lead_moves := 20, max_losing_komi := 10, indicator := Indicator.value,
    zone_red := 45/100, zone_green := 6/10, score_step := 2, score_step_byavg := 0,
    use_komi_ratchet := true, komi_ratchet_maxage := 0, komi_ratchet_age := 0,
    komi_ratchet := 1000, adapter := fun _ => 1/2, adapt_base := 0,
    score := { playouts := 5, value := 3 }, value := { playouts := 5, value := 3/10 } }

/-- A concrete Adaptive state with a trustworthy score statistic, score
indicator installed. -/
def c5_state : DynkomiAdaptive :=
  { ex_adaptive with indicator := Indicator.score, score := { playouts := 200, value := 3 } }

/-- A concrete board 50 moves into a 3-stone handicap game. -/
def ex_board : Board := { moves := 50, effective_handicap := fun _ => 21 }

/-- A concrete board at move 0. -/
def c7_board : Board := { moves := 0, effective_handicap := fun _ => 21 }

/-- A concrete tree snapshot: cached compensation 4, White to move at the
root (so the compensated side is Black). -/
def ex_tree : Tree := { extra_komi := 4, root_color := Stone.white }

/-- A concrete tree snapshot with cached compensation 3. -/
def c6_tree : Tree := { extra_komi := 3, root_color := Stone.white }

/-- A red-zone state for Black: trustworthy value statistic mean 0.3. -/
def c1_red_state : DynkomiAdaptive :=
  { ex_adaptive with value := { playouts := 200, value := 3/10 } }

/-- A green-zone state for Black (mean 0.8) with ratchet bound 4. -/
def c1_green_state : DynkomiAdaptive :=
  { ex_adaptive with value := { playouts := 200, value := 8/10 }, komi_ratchet := 4 }

/-- A green-zone state with ratchet bound 4, ratchet age limit 1 and
age 0: the setting of the ratchet-expiry analysis. -/
def c6_state0 : DynkomiAdaptive :=
  { c1_green_state with komi_ratchet_maxage := 1 }

/-- The statistic refill performed by the search between two `permove`
calls: the value statistic becomes trustworthy again with the same mean. -/
def c6_refill (a : DynkomiAdaptive) : DynkomiAdaptive :=
  { a with value := { a.value with playouts := 200 } }

/-- The state after one ratchet-limited green-zone evaluation from
`c6_state0` (age 1 = the configured maximum age), statistics refilled. -/
def c6_state1 : DynkomiAdaptive :=
  c6_refill (komi_by_value c6_state0 ex_board c6_tree Stone.black).2

/-- The `c6_state0` setting once the ratchet age (2) exceeds the
configured limit (1). -/
def c6_state2 : DynkomiAdaptive :=
  { c6_state0 with komi_ratchet_age := 2 }

/-- Scheduled configuration `moves=200, handicap_value=7`. -/
def c4_linear : DynkomiLinear := { handicap_value := 7, moves := 200, rootbased := false }

/-- An even-game board at move 0: the handicap-derived base komi is 0. -/
def c4_board0 : Board := { moves := 0, effective_handicap := fun _ => 0 }

/-- The same even-game board at move 1. -/
def c4_board1 : Board := { moves := 1, effective_handicap := fun _ => 0 }

/-! ## Theorems -/

/-- The Color-Frame Normalizer is an involution. -/
lemma komi_by_color_invol (x : ℚ) (c : Stone) :
    komi_by_color (komi_by_color x c) c = x := by
  cases c <;> simp [komi_by_color]

/-- The two player colors are distinct (used to evaluate the
point-of-view tests on concrete inputs). -/
lemma stone_black_ne_white : (Stone.black = Stone.white) = False :=
  eq_false (by decide)

/-- The step determination leaves the zone configuration untouched. -/
lemma vss_zone_red (a : DynkomiAdaptive) (c : Stone) :
    (value_score_step a c).2.zone_red = a.zone_red := by
  unfold value_score_step score_soft_reset
  split_ifs <;> rfl

/-- The step determination leaves the zone configuration untouched. -/
lemma vss_zone_green (a : DynkomiAdaptive) (c : Stone) :
    (value_score_step a c).2.zone_green = a.zone_green := by
  unfold value_score_step score_soft_reset
  split_ifs <;> rfl

/-- The step determination leaves the ratchet bound untouched. -/
lemma vss_komi_ratchet (a : DynkomiAdaptive) (c : Stone) :
    (value_score_step a c).2.komi_ratchet = a.komi_ratchet := by
  unfold value_score_step score_soft_reset
  split_ifs <;> rfl

/-- The step determination leaves the ratchet age untouched. -/
lemma vss_komi_ratchet_age (a : DynkomiAdaptive) (c : Stone) :
    (value_score_step a c).2.komi_ratchet_age = a.komi_ratchet_age := by
  unfold value_score_step score_soft_reset
  split_ifs <;> rfl

/-- The step determination leaves the ratchet age limit untouched. -/
lemma vss_komi_ratchet_maxage (a : DynkomiAdaptive) (c : Stone) :
    (value_score_step a c).2.komi_ratchet_maxage = a.komi_ratchet_maxage := by
  unfold value_score_step score_soft_reset
  split_ifs <;> rfl

/-- The step determination leaves the ratchet switch untouched. -/
lemma vss_use_komi_ratchet (a : DynkomiAdaptive) (c : Stone) :
    (value_score_step a c).2.use_komi_ratchet = a.use_komi_ratchet := by
  unfold value_score_step score_soft_reset
  split_ifs <;> rfl

/-- The value soft reset leaves the zone configuration untouched. -/
lemma vsr_zone_red (a : DynkomiAdaptive) :
    (value_soft_reset a).zone_red = a.zone_red := rfl

/-- The value soft reset leaves the zone configuration untouched. -/
lemma vsr_zone_green (a : DynkomiAdaptive) :
    (value_soft_reset a).zone_green = a.zone_green := rfl

/-- The value soft reset leaves the ratchet bound untouched. -/
lemma vsr_komi_ratchet (a : DynkomiAdaptive) :
    (value_soft_reset a).komi_ratchet = a.komi_ratchet := rfl

/-- The value soft reset leaves the ratchet age untouched. -/
lemma vsr_komi_ratchet_age (a : DynkomiAdaptive) :
    (value_soft_reset a).komi_ratchet_age = a.komi_ratchet_age := rfl

/-- The value soft reset leaves the ratchet age limit untouched. -/
lemma vsr_komi_ratchet_maxage (a : DynkomiAdaptive) :
    (value_soft_reset a).komi_ratchet_maxage = a.komi_ratchet_maxage := rfl

/-- The value soft reset leaves the ratchet switch untouched. -/
lemma vsr_use_komi_ratchet (a : DynkomiAdaptive) :
    (value_soft_reset a).use_komi_ratchet = a.use_komi_ratchet := rfl

/-- Characterization of the red-zone branch of `komi_by_value`: with a
trustworthy value statistic and a side-relative winrate below the red-zone
edge, the step is subtracted and the pre-step side-relative compensation is
recorded into the ratchet when it is strictly positive. -/
lemma komi_by_value_red (a : DynkomiAdaptive) (b : Board) (t : Tree) (c : Stone)
    (hp : ¬ a.value.playouts < TRUSTWORTHY_KOMI_PLAYOUTS)
    (hred : (if c = Stone.white then 1 - a.value.value else a.value.value) < a.zone_red) :
    komi_by_value a b t c =
      (komi_by_color (komi_by_color t.extra_komi c -
          ((value_score_step (value_soft_reset a) c).1 : ℚ)) c,
       if 0 < komi_by_color t.extra_komi c
       then { (value_score_step (value_soft_reset a) c).2 with
                komi_ratchet := komi_by_color t.extra_komi c }
       else (value_score_step (value_soft_reset a) c).2) := by
  unfold komi_by_value
  rw [if_neg hp]
  simp only [vss_zone_red, vsr_zone_red]
  rw [if_pos hred]

/-- Characterization of the green-zone branch of `komi_by_value` when the
ratchet is not expired by age: the step is added and the result is clamped
against the ratchet bound (incrementing the ratchet age) exactly when the
ratchet is enabled and the increased compensation reaches the bound. -/
lemma komi_by_value_green (a : DynkomiAdaptive) (b : Board) (t : Tree) (c : Stone)
    (hp : ¬ a.value.playouts < TRUSTWORTHY_KOMI_PLAYOUTS)
    (hred : ¬ (if c = Stone.white then 1 - a.value.value else a.value.value) < a.zone_red)
    (hgreen : ¬ (if c = Stone.white then 1 - a.value.value else a.value.value) < a.zone_green)
    (hnoexp : ¬ (0 < a.komi_ratchet_maxage ∧ a.komi_ratchet_maxage < a.komi_ratchet_age)) :
    komi_by_value a b t c =
      (if a.use_komi_ratchet ∧ a.komi_ratchet ≤ komi_by_color t.extra_komi c +
            ((value_score_step (value_soft_reset a) c).1 : ℚ)
       then (komi_by_color (a.komi_ratchet - 1) c,
             { (value_score_step (value_soft_reset a) c).2 with
                 komi_ratchet_age := a.komi_ratchet_age + 1 })
       else (komi_by_color (komi_by_color t.extra_komi c +
               ((value_score_step (value_soft_reset a) c).1 : ℚ)) c,
             (value_score_step (value_soft_reset a) c).2)) := by
  unfold komi_by_value
  rw [if_neg hp]
  simp only [vss_zone_red, vsr_zone_red, vss_zone_green, vsr_zone_green,
    vss_komi_ratchet_maxage, vsr_komi_ratchet_maxage,
    vss_komi_ratchet_age, vsr_komi_ratchet_age,
    vss_komi_ratchet, vsr_komi_ratchet,
    vss_use_komi_ratchet, vsr_use_komi_ratchet]
  rw [if_neg hred, if_neg hgreen, if_neg hnoexp]
  simp only [vss_zone_red, vsr_zone_red, vss_zone_green, vsr_zone_green,
    vss_komi_ratchet_maxage, vsr_komi_ratchet_maxage,
    vss_komi_ratchet_age, vsr_komi_ratchet_age,
    vss_komi_ratchet, vsr_komi_ratchet,
    vss_use_komi_ratchet, vsr_use_komi_ratchet, ge_iff_le]

/-- Characterization of the green-zone branch of `komi_by_value` when the
ratchet has aged out (`0 < maxage < age`): the ratchet is reset to the
sentinel 1000 with age 0 and, as long as the increased compensation stays
below the sentinel, the result is unconstrained. -/
lemma komi_by_value_green_expired (a : DynkomiAdaptive) (b : Board) (t : Tree) (c : Stone)
    (hp : ¬ a.value.playouts < TRUSTWORTHY_KOMI_PLAYOUTS)
    (hred : ¬ (if c = Stone.white then 1 - a.value.value else a.value.value) < a.zone_red)
    (hgreen : ¬ (if c = Stone.white then 1 - a.value.value else a.value.value) < a.zone_green)
    (hexp : 0 < a.komi_ratchet_maxage ∧ a.komi_ratchet_maxage < a.komi_ratchet_age)
    (hsent : komi_by_color t.extra_komi c +
        ((value_score_step (value_soft_reset a) c).1 : ℚ) < 1000) :
    komi_by_value a b t c =
      (komi_by_color (komi_by_color t.extra_komi c +
          ((value_score_step (value_soft_reset a) c).1 : ℚ)) c,
       { (value_score_step (value_soft_reset a) c).2 with
           komi_ratchet := 1000, komi_ratchet_age := 0 }) := by
  unfold komi_by_value
  rw [if_neg hp]
  simp only [vss_zone_red, vsr_zone_red, vss_zone_green, vsr_zone_green,
    vss_komi_ratchet_maxage, vsr_komi_ratchet_maxage,
    vss_komi_ratchet_age, vsr_komi_ratchet_age]
  rw [if_neg hred, if_neg hgreen, if_pos hexp, if_neg (by simp; intro _; linarith)]

/-- C9: the Fixed (none) variant's per-move and per-simulation operations
return 0 for every board state, search-tree snapshot, and node. -/
theorem c9_none_returns_zero (b : Board) (t : Tree) (n : TreeNode) :
    none_permove b t = 0 ∧ none_persim b t n = 0 :=
  ⟨rfl, rfl⟩

/-- C3: each Adaptive indicator function returns the current cached
compensation `tree->extra_komi` unchanged, with the whole controller state
(in particular both statistics) unmutated, whenever the relevant
statistic's sample count is below the 200-sample trust threshold — for
every mean value, and without any error (the functions are total). -/
theorem c3_insufficient_samples_skip (a : DynkomiAdaptive) (b : Board) (t : Tree)
    (c : Stone) :
    (a.score.playouts < TRUSTWORTHY_KOMI_PLAYOUTS →
      komi_by_score a b t c = (t.extra_komi, a)) ∧
    (a.value.playouts < TRUSTWORTHY_KOMI_PLAYOUTS →
      komi_by_value a b t c = (t.extra_komi, a)) := by
  constructor <;> intro h
  · simp [komi_by_score, h]
  · simp [komi_by_value, h]

/-- Witness for C3: at 5 samples both indicators return the cached
compensation and the untouched state. -/
theorem c3_witness :
    komi_by_score ex_adaptive ex_board ex_tree Stone.black = (ex_tree.extra_komi, ex_adaptive) ∧
    komi_by_value ex_adaptive ex_board ex_tree Stone.black = (ex_tree.extra_komi, ex_adaptive) :=
  ⟨(c3_insufficient_samples_skip ex_adaptive ex_board ex_tree Stone.black).1 (by decide),
   (c3_insufficient_samples_skip ex_adaptive ex_board ex_tree Stone.black).2 (by decide)⟩

/-- C5: with a trustworthy score statistic (at least 200 samples), the
score indicator soft-resets the statistic — count becomes 1, the mean is
left unchanged — and returns `tree->extra_komi + p * mean` where
`p = adapt_base + adapter(board) * (1 - adapt_base)` capped at 0.9. -/
theorem c5_score_indicator (a : DynkomiAdaptive) (b : Board) (t : Tree) (c : Stone)
    (h : TRUSTWORTHY_KOMI_PLAYOUTS ≤ a.score.playouts) :
    (komi_by_score a b t c).2 = score_soft_reset a ∧
    (komi_by_score a b t c).2.score.playouts = 1 ∧
    (komi_by_score a b t c).2.score.value = a.score.value ∧
    (komi_by_score a b t c).1 =
      t.extra_komi + min (a.adapt_base + a.adapter b * (1 - a.adapt_base)) (9/10)
        * a.score.value := by
  have h' : ¬ a.score.playouts < TRUSTWORTHY_KOMI_PLAYOUTS := not_lt.mpr h
  have hm : min (a.adapt_base + a.adapter b * (1 - a.adapt_base)) (9/10 : ℚ)
      = if 9/10 < a.adapt_base + a.adapter b * (1 - a.adapt_base) then (9/10 : ℚ)
        else a.adapt_base + a.adapter b * (1 - a.adapt_base) := by
    rw [min_def]
    split_ifs <;> first | rfl | linarith
  refine ⟨?_, ?_, ?_, ?_⟩ <;> simp [komi_by_score, score_soft_reset, h', hm]

/-- Witness for C5: at 200 samples with mean 3, adapter rate 1/2 and base
0, the result is `4 + (1/2) * 3 = 11/2` and the count is reset to 1. -/
theorem c5_witness :
    (komi_by_score c5_state ex_board ex_tree Stone.black).1 = 11/2 ∧
    (komi_by_score c5_state ex_board ex_tree Stone.black).2.score.playouts = 1 := by
  have h := c5_score_indicator c5_state ex_board ex_tree Stone.black (by decide)
  refine ⟨?_, h.2.1⟩
  rw [h.2.2.2]
  norm_num [c5_state, ex_adaptive, ex_tree, min_def]

/-- C7: whenever `b->moves ≤ lead_moves`, Adaptive `permove` returns the
handicap-derived value with the fixed per-stone value 7 and leaves the
whole state — both statistics included — untouched, regardless of any
statistic content. -/
theorem c7_lead_moves_handicap (a : DynkomiAdaptive) (b : Board) (t : Tree)
    (h : b.moves ≤ a.lead_moves) :
    adaptive_permove a b t = (b.effective_handicap 7, a) := by
  simp [adaptive_permove, h]

/-- Witness for C7: at move 0 with `lead_moves = 20` the result is the
handicap value 21 and the state is returned unchanged. -/
theorem c7_witness :
    adaptive_permove ex_adaptive c7_board ex_tree = (21, ex_adaptive) :=
  c7_lead_moves_handicap ex_adaptive c7_board ex_tree (by decide)

/-- C10: Scheduled `permove` is total with a zero move budget: when the
budget is 0 every non-negative move count falls into the `return 0` branch,
the division is reached only when `b->moves < l->moves` — which forces the
divisor to be at least 1 — and the default budget on boards of side length
below 19 is exactly 0. -/
theorem c10_zero_budget_total (l : DynkomiLinear) (b : Board) (h : 0 ≤ b.moves) :
    (b.moves < l.moves → 1 ≤ l.moves) ∧
    (l.moves = 0 → linear_permove l b = 0) ∧
    (b.moves < l.moves → linear_permove l b =
      b.effective_handicap l.handicap_value * ((l.moves : ℚ) - (b.moves : ℚ)) / (l.moves : ℚ)) ∧
    (∀ size : Int, size - 2 < 19 → linear_default_moves size = 0) := by
  refine ⟨fun hlt => by omega, fun h0 => ?_, fun hlt => ?_, fun size hs => ?_⟩
  · have hge : l.moves ≤ b.moves := by omega
    simp [linear_permove, hge]
  · simp [linear_permove, not_le.mpr hlt]
  · have hns : ¬ (19 : Int) ≤ size - 2 := by omega
    simp [linear_default_moves, hns]

/-- Witness for C10: with a zero budget the compensation at move 0 is 0, a
positive budget of 200 exceeds move 50, and a 9×9 board keeps budget 0. -/
theorem c10_witness :
    linear_permove { handicap_value := 7, moves := 0, rootbased := false } ex_board = 0 ∧
    (1 : Int) ≤ 200 ∧
    linear_default_moves 11 = 0 := by
  have h := c10_zero_budget_total
    { handicap_value := 7, moves := 0, rootbased := false } ex_board (by decide)
  have h2 := c10_zero_budget_total
    { handicap_value := 7, moves := 200, rootbased := false } ex_board (by decide)
  exact ⟨h.2.1 rfl, h2.1 (by decide), h.2.2.2 11 (by decide)⟩

/-- C8 (code bug): constructing the Adaptive strategy with the option
string `indicator` — a value-requiring option without its `=value` part —
does not reach the fatal invalid-argument report: unlike every other
value-requiring option, the `indicator` branch omits the `&& optval` guard
and passes the null value pointer straight to `strcasecmp`, undefined
behaviour.  All the other cases of the claim do produce the fatal
configuration error: an unknown name, `adapter` or `lead_moves` without a
value (Adaptive), an unknown name or `moves` without a value (Scheduled),
and any argument at all for the Fixed variant. -/
theorem c8_indicator_missing_value :
    adaptive_args ("indicator".data) = InitResult.undefinedBehavior ∧
    adaptive_args ("bogus".data) = InitResult.configError ∧
    adaptive_args ("adapter".data) = InitResult.configError ∧
    adaptive_args ("lead_moves".data) = InitResult.configError ∧
    adaptive_args ("indicator=value".data) = InitResult.ok ∧
    linear_args ("bogus".data) = InitResult.configError ∧
    linear_args ("moves".data) = InitResult.configError ∧
    none_args (some ("x".data)) = InitResult.configError := by
  decide

/-- C2: once past the lead moves, Adaptive `permove` returns the
indicator's candidate exactly when the candidate is strictly better than
the floor `komi_by_color(-max_losing_komi, side)` from the side's
perspective, returns the floor itself otherwise, and consequently never
returns a value whose side-relative frame is below `-max_losing_komi`
(`side` being the color opposite the root color). -/
theorem c2_floor_bound (a : DynkomiAdaptive) (b : Board) (t : Tree)
    (h : a.lead_moves < b.moves) :
    ((adaptive_permove a b t).1 =
      if 0 < komi_by_color ((run_indicator a b t (stone_other t.root_color)).1 -
            komi_by_color (-a.max_losing_komi) (stone_other t.root_color))
            (stone_other t.root_color)
      then (run_indicator a b t (stone_other t.root_color)).1
      else komi_by_color (-a.max_losing_komi) (stone_other t.root_color)) ∧
    -a.max_losing_komi ≤ komi_by_color (adaptive_permove a b t).1 (stone_other t.root_color) := by
  have hb : ¬ b.moves ≤ a.lead_moves := not_le.mpr h
  constructor
  · simp only [adaptive_permove, if_neg hb]
    split_ifs <;> rfl
  · rcases t with ⟨ek, rc⟩
    cases rc <;>
      simp only [adaptive_permove, hb, if_false, stone_other, komi_by_color] <;>
      split_ifs <;>
      simp [komi_by_color] <;>
      linarith

/-- Witness for C2: at a state past the lead moves the returned value in
the side's frame is bounded below by the configured maximum losing komi. -/
theorem c2_witness :
    -ex_adaptive.max_losing_komi ≤
      komi_by_color (adaptive_permove ex_adaptive ex_board ex_tree).1
        (stone_other ex_tree.root_color) :=
  (c2_floor_bound ex_adaptive ex_board ex_tree (by decide)).2

/-- C1: with the value indicator, the ratchet enabled and a trustworthy
value statistic, (i) a red-zone evaluation with strictly positive
side-relative compensation records that compensation as the ratchet bound,
and (ii) a green-zone evaluation that does not expire the ratchet by age
returns a side-relative compensation strictly below the current bound and
leaves the bound in place; whenever the incremented side-relative
compensation would reach or exceed the bound it is clamped to bound − 1 and
the ratchet age is incremented. -/
theorem c1_ratchet_bound (a : DynkomiAdaptive) (b : Board) (t : Tree) (color : Stone)
    (hr : a.use_komi_ratchet = true)
    (hp : TRUSTWORTHY_KOMI_PLAYOUTS ≤ a.value.playouts) :
    ((if color = Stone.white then 1 - a.value.value else a.value.value) < a.zone_red →
      0 < komi_by_color t.extra_komi color →
      (komi_by_value a b t color).2.komi_ratchet = komi_by_color t.extra_komi color) ∧
    (a.zone_red ≤ a.zone_green →
      a.zone_green ≤ (if color = Stone.white then 1 - a.value.value else a.value.value) →
      ¬ (0 < a.komi_ratchet_maxage ∧ a.komi_ratchet_maxage < a.komi_ratchet_age) →
      komi_by_color (komi_by_value a b t color).1 color < a.komi_ratchet ∧
      (komi_by_value a b t color).2.komi_ratchet = a.komi_ratchet ∧
      (a.komi_ratchet ≤ komi_by_color t.extra_komi color +
          ((value_score_step (value_soft_reset a) color).1 : ℚ) →
        komi_by_color (komi_by_value a b t color).1 color = a.komi_ratchet - 1 ∧
        (komi_by_value a b t color).2.komi_ratchet_age = a.komi_ratchet_age + 1)) := by
  have hp' : ¬ a.value.playouts < TRUSTWORTHY_KOMI_PLAYOUTS := not_lt.mpr hp
  constructor
  · intro hred hpos
    rw [komi_by_value_red a b t color hp' hred]
    simp only [if_pos hpos]
  · intro hrg hgreen hnoexp
    have hred : ¬ (if color = Stone.white then 1 - a.value.value else a.value.value)
        < a.zone_red := not_lt.mpr (hrg.trans hgreen)
    have hgreen' : ¬ (if color = Stone.white then 1 - a.value.value else a.value.value)
        < a.zone_green := not_lt.mpr hgreen
    rw [komi_by_value_green a b t color hp' hred hgreen' hnoexp]
    split_ifs with hc
    · refine ⟨?_, ?_, fun _ => ⟨?_, ?_⟩⟩
      · simp only [komi_by_color_invol]
        linarith
      · simp only [vss_komi_ratchet, vsr_komi_ratchet]
      · simp only [komi_by_color_invol]
      · rfl
    · rw [not_and_or] at hc
      rcases hc with hc | hc


      · exact absurd (by simp [hr]) hc
      · push_neg at hc
        refine ⟨?_, ?_, fun hge => absurd hge (not_le.mpr hc)⟩
        · simp only [komi_by_color_invol]
          exact hc
        · simp only [vss_komi_ratchet, vsr_komi_ratchet]

/-- Witness for C1: a red-zone evaluation at canonical compensation 4
records ratchet bound 4; a green-zone evaluation with bound 4 and
candidate 3 + 2 = 5 is clamped to 4 − 1 = 3 and the age is incremented. -/
theorem c1_witness :
    (komi_by_value c1_red_state ex_board ex_tree Stone.black).2.komi_ratchet =
      komi_by_color ex_tree.extra_komi Stone.black ∧
    komi_by_color (komi_by_value c1_green_state ex_board c6_tree Stone.black).1 Stone.black =
      c1_green_state.komi_ratchet - 1 ∧
    (komi_by_value c1_green_state ex_board c6_tree Stone.black).2.komi_ratchet_age =
      c1_green_state.komi_ratchet_age + 1 := by
  have hred := (c1_ratchet_bound c1_red_state ex_board ex_tree Stone.black (by decide)
    (by decide)).1
    (by norm_num [c1_red_state, ex_adaptive, stone_black_ne_white])
    (by norm_num [komi_by_color, ex_tree])
  have hgreen := ((c1_ratchet_bound c1_green_state ex_board c6_tree Stone.black (by decide)
    (by decide)).2
    (by norm_num [c1_green_state, ex_adaptive, stone_black_ne_white])
    (by norm_num [c1_green_state, ex_adaptive, stone_black_ne_white])
    (by decide)).2.2
    (by norm_num [c1_green_state, ex_adaptive, c6_tree, komi_by_color,
      value_score_step, value_soft_reset, stone_black_ne_white])
  exact ⟨hred, hgreen.1, hgreen.2⟩

/-- C6 counterexample: with `ratchet_maxage = 1`, after 1 (= maxage)
consecutive ratchet-limited green-zone evaluation the ratchet age is 1, and
the very next green-zone evaluation is still constrained by the old
bound 4 — it returns the clamped 4 − 1 = 3 and leaves the bound at 4 —
contradicting the claim that it expires the ratchet (bound reset to the
sentinel 1000, age 0) and is unconstrained. -/
theorem c6_counterexample :
    (komi_by_value c6_state0 ex_board c6_tree Stone.black).2.komi_ratchet_age = 1 ∧
    (komi_by_value c6_state0 ex_board c6_tree Stone.black).1 = 3 ∧
    ¬ ((komi_by_value c6_state1 ex_board c6_tree Stone.black).2.komi_ratchet = 1000 ∧
       (komi_by_value c6_state1 ex_board c6_tree Stone.black).2.komi_ratchet_age = 0) ∧
    (komi_by_value c6_state1 ex_board c6_tree Stone.black).1 = 3 ∧
    (komi_by_value c6_state1 ex_board c6_tree Stone.black).2.komi_ratchet = 4 := by
  norm_num [komi_by_value, value_score_step, value_soft_reset, score_soft_reset,
    komi_by_color, c6_state1, c6_refill, c6_state0, c1_green_state, ex_adaptive,
    c6_tree, ex_board, TRUSTWORTHY_KOMI_PLAYOUTS, stone_black_ne_white]

/-- C6 (amended): with `ratchet_maxage > 0`, once the ratchet age exceeds
the limit — which takes `ratchet_maxage + 1` consecutive ratchet-limited
green-zone evaluations starting from age 0, each incrementing the age by
one — the next green-zone evaluation expires the ratchet, resetting its
bound to the unreachable sentinel 1000 and its age to 0, and (as long as
the increased compensation stays below the sentinel) returns the unclamped
`extra_komi + step`, unconstrained by the old bound. -/
theorem c6_ratchet_expiry (a : DynkomiAdaptive) (b : Board) (t : Tree) (color : Stone)
    (hp : TRUSTWORTHY_KOMI_PLAYOUTS ≤ a.value.playouts)
    (hrg : a.zone_red ≤ a.zone_green)
    (hgreen : a.zone_green ≤ (if color = Stone.white then 1 - a.value.value else a.value.value))
    (hexp : 0 < a.komi_ratchet_maxage ∧ a.komi_ratchet_maxage < a.komi_ratchet_age)
    (hsent : komi_by_color t.extra_komi color +
        ((value_score_step (value_soft_reset a) color).1 : ℚ) < 1000) :
    komi_by_color (komi_by_value a b t color).1 color =
      komi_by_color t.extra_komi color +
        ((value_score_step (value_soft_reset a) color).1 : ℚ) ∧
    (komi_by_value a b t color).2.komi_ratchet = 1000 ∧
    (komi_by_value a b t color).2.komi_ratchet_age = 0 := by
  have hp' : ¬ a.value.playouts < TRUSTWORTHY_KOMI_PLAYOUTS := not_lt.mpr hp
  have hred : ¬ (if color = Stone.white then 1 - a.value.value else a.value.value)
      < a.zone_red := not_lt.mpr (hrg.trans hgreen)
  rw [komi_by_value_green_expired a b t color hp' hred (not_lt.mpr hgreen) hexp hsent]
  exact ⟨komi_by_color_invol _ _, rfl, rfl⟩

/-- Witness for C6 (amended): with bound 4, age limit 1 and age 2, a
green-zone evaluation resets the ratchet to the sentinel and returns the
unclamped 3 + 2 = 5. -/
theorem c6_witness :
    komi_by_color (komi_by_value c6_state2 ex_board c6_tree Stone.black).1 Stone.black =
      komi_by_color c6_tree.extra_komi Stone.black +
        ((value_score_step (value_soft_reset c6_state2) Stone.black).1 : ℚ) ∧
    (komi_by_value c6_state2 ex_board c6_tree Stone.black).2.komi_ratchet = 1000 ∧
    (komi_by_value c6_state2 ex_board c6_tree Stone.black).2.komi_ratchet_age = 0 :=
  c6_ratchet_expiry c6_state2 ex_board c6_tree Stone.black (by decide)
    (by norm_num [c6_state2, c6_state0, c1_green_state, ex_adaptive, stone_black_ne_white])
    (by norm_num [c6_state2, c6_state0, c1_green_state, ex_adaptive, stone_black_ne_white])
    (by decide)
    (by norm_num [c6_state2, c6_state0, c1_green_state, ex_adaptive, c6_tree,
      komi_by_color, value_score_step, value_soft_reset, stone_black_ne_white])

/-- C4 counterexample: on a board whose handicap-derived base komi is 0,
Scheduled `permove` is constantly 0 on `[0, moveBudget)` — moves 0 and 1
give equal values with budget 200 — so it is not strictly decreasing in
moves played over that interval as the claim states. -/
theorem c4_counterexample :
    ¬ linear_permove c4_linear c4_board1 < linear_permove c4_linear c4_board0 := by
  norm_num [linear_permove, c4_linear, c4_board0, c4_board1]

/-- C4 (amended): as a function of the moves played (with the board's
handicap query held fixed), Scheduled `permove` equals the base komi at 0
moves when the budget is positive, is strictly decreasing on
`[0, moveBudget)` whenever the base komi is strictly positive,
is monotonically non-increasing whenever the base komi is non-negative,
and returns exactly 0 at and after the move budget. -/
theorem c4_schedule (l : DynkomiLinear) (eh : Int → ℚ) :
    (0 < l.moves → linear_permove l { moves := 0, effective_handicap := eh } =
      eh l.handicap_value) ∧
    (0 < eh l.handicap_value → ∀ p q : Int, 0 ≤ p → p < q → q < l.moves →
      linear_permove l { moves := q, effective_handicap := eh } <
        linear_permove l { moves := p, effective_handicap := eh }) ∧
    (0 ≤ eh l.handicap_value → ∀ p q : Int, 0 ≤ p → p ≤ q →
      linear_permove l { moves := q, effective_handicap := eh } ≤
        linear_permove l { moves := p, effective_handicap := eh }) ∧
    (∀ p : Int, l.moves ≤ p → linear_permove l { moves := p, effective_handicap := eh } = 0) := by
  refine ⟨?_, ?_, ?_, ?_⟩
  · intro hm
    have hM : ((l.moves : ℚ)) ≠ 0 := Int.cast_ne_zero.mpr (by omega)
    simp only [linear_permove]
    rw [if_neg (by try simp; omega)]
    simp only [Int.cast_zero, sub_zero]
    exact mul_div_cancel_right₀ _ hM
  · intro hbase p q hp hpq hqM
    have hM : (0 : ℚ) < (l.moves : ℚ) := by exact_mod_cast (by omega : (0 : Int) < l.moves)
    have hq' : (q : ℚ) < (l.moves : ℚ) := by exact_mod_cast hqM
    have hpq' : (p : ℚ) < (q : ℚ) := by exact_mod_cast hpq
    simp only [linear_permove]
    rw [if_neg (by try simp; omega), if_neg (by try simp; omega)]
    apply div_lt_div_of_pos_right ?_ hM
    case _ =>
      apply mul_lt_mul_of_pos_left ?_ hbase
      linarith
  · intro hbase p q hp hpq
    rcases le_or_lt l.moves q with hqM | hqM
    · rcases le_or_lt l.moves p with hpM | hpM
      · simp [linear_permove, hpM, hqM]
      · have hM : (0 : ℚ) < (l.moves : ℚ) := by exact_mod_cast (by omega : (0 : Int) < l.moves)
        have hp' : (p : ℚ) < (l.moves : ℚ) := by exact_mod_cast hpM
        simp only [linear_permove]
        rw [if_pos (by try simp; omega), if_neg (by try simp; omega)]
        apply div_nonneg ?_ hM.le
        apply mul_nonneg hbase
        linarith
    · have hM : (0 : ℚ) < (l.moves : ℚ) := by exact_mod_cast (by omega : (0 : Int) < l.moves)
      have hpq' : (p : ℚ) ≤ (q : ℚ) := by exact_mod_cast hpq
      simp only [linear_permove]
      rw [if_neg (by try simp; omega), if_neg (by try simp; omega)]
      apply div_le_div_of_nonneg_right ?_ hM.le
      apply mul_le_mul_of_nonneg_left ?_ hbase
      linarith
  · intro p hpM
    simp [linear_permove, hpM]

/-- Witness for C4 (amended): with budget 200 and base komi 21 the schedule
gives 21 at move 0, strictly decreases from move 50 to move 100, and is 0
at move 200. -/
theorem c4_schedule_witness :
    linear_permove c4_linear { moves := 0, effective_handicap := fun _ => 21 } = 21 ∧
    linear_permove c4_linear { moves := 100, effective_handicap := fun _ => 21 } <
      linear_permove c4_linear { moves := 50, effective_handicap := fun _ => 21 } ∧
    linear_permove c4_linear { moves := 100, effective_handicap := fun _ => 21 } ≤
      linear_permove c4_linear { moves := 50, effective_handicap := fun _ => 21 } ∧
    linear_permove c4_linear { moves := 200, effective_handicap := fun _ => 21 } = 0 := by
  have h := c4_schedule c4_linear (fun _ => 21)
  exact ⟨h.1 (by norm_num [c4_linear]),
    h.2.1 (by norm_num) 50 100 (by norm_num) (by norm_num) (by norm_num [c4_linear]),
    h.2.2.1 (by norm_num) 50 100 (by norm_num) (by norm_num),
    h.2.2.2 200 (by norm_num [c4_linear])⟩

end Pachi
